import Mathlib

/-!
Verification development for the automated content-generation pipeline of the
heythampi backend (`scripts/auto_generate_content.py`).

The Python source is shallowly embedded: pure string/list manipulation is
translated directly; the process-wide `random` state is modelled as an explicit
stream of natural numbers (`List Nat`) threaded through every function, where
`random.choice`, `random.randint` and `random.shuffle` consume elements of the
stream (an exhausted stream yields 0, keeping every function total and
executable); the external Gemini generation service is an oracle parameter
(a function from the call's inputs to an optional response, `none` standing
for a raised request exception); the float comparison `overlap > n * 0.3` is
modelled exactly over the integers as `10 * overlap > 3 * n` (equivalently
over ℚ), which agrees with the IEEE computation at every input appearing in
the claims.
-/

namespace HeyThampi

/-- One element of the modelled global random stream; an exhausted stream
yields 0 so that all definitions stay total and executable. -/
def rnext : List Nat → Nat × List Nat
  | [] => (0, [])
  | n :: rest => (n, rest)

/-- `random.choice xs` : pick the element at position `n % len` where `n` is
drawn from the stream.  The default `d` is only reached on an empty list;
every call site in the source guards the empty case before calling. -/
def pyChoice (xs : List α) (d : α) (r : List Nat) : α × List Nat :=
  let p := rnext r
  (xs.getD (p.1 % xs.length) d, p.2)

/-- `random.randint a b` (both bounds inclusive). -/
def pyRandint (a b : Nat) (r : List Nat) : Nat × List Nat :=
  let p := rnext r
  (a + p.1 % (b - a + 1), p.2)

/-- `random.choice(pairs) if pairs else d` — the guarded choice used
throughout the synthesizer (the stream is consumed only when the list is
non-empty). -/
def pyChoicePair (pairs : List (String × String)) (d : String × String)
    (r : List Nat) : (String × String) × List Nat :=
  if pairs.isEmpty then (d, r) else pyChoice pairs ("", "") r

/-- Select the `n`-th element (clamped) of `x :: xs`, returning it together
with the remaining elements in their original order. -/
def pickIn (x : α) (xs : List α) : Nat → α × List α
  | 0 => (x, xs)
  | n + 1 =>
    match xs with
    | [] => (x, [])
    | z :: zs =>
      let p := pickIn z zs n
      (p.1, x :: p.2)

theorem pickIn_length (x : α) (xs : List α) (n : Nat) :
    (pickIn x xs n).2.length = xs.length := by
  induction xs generalizing x n with
  | nil => cases n <;> simp [pickIn]
  | cons z zs ih =>
    cases n with
    | zero => simp [pickIn]
    | succ m => simp [pickIn, ih z m]

theorem pickIn_perm (x : α) (xs : List α) (n : Nat) :
    ((pickIn x xs n).1 :: (pickIn x xs n).2).Perm (x :: xs) := by
  induction xs generalizing x n with
  | nil => cases n <;> simp [pickIn]
  | cons z zs ih =>
    cases n with
    | zero => simp [pickIn]
    | succ m =>
      simp only [pickIn]
      exact (List.Perm.swap x (pickIn z zs m).1 (pickIn z zs m).2).trans
        ((ih z m).cons x)

/-- Fuel-indexed body of the shuffle model (the fuel is always the length of
the list being shuffled, so it never runs out). -/
def pyShuffleGo : Nat → List α → List Nat → List α × List Nat
  | 0, xs, r => (xs, r)
  | _ + 1, [], r => ([], r)
  | f + 1, x :: xs, r =>
    let p := rnext r
    let q := pickIn x xs (p.1 % (xs.length + 1))
    let t := pyShuffleGo f q.2 p.2
    (q.1 :: t.1, t.2)

/-- `random.shuffle` is modelled as a stream-indexed permutation: repeatedly
select a position `n % remaining` from the stream and move that element to the
front.  Every permutation of the input is reachable for a suitable stream, and
the output is always a permutation of the input. -/
def pyShuffle (xs : List α) (r : List Nat) : List α × List Nat :=
  pyShuffleGo xs.length xs r

theorem pyShuffleGo_perm : ∀ (f : Nat) (xs : List α) (r : List Nat),
    ((pyShuffleGo f xs r).1).Perm xs
  | 0, xs, r => by simp [pyShuffleGo]
  | _ + 1, [], r => by simp [pyShuffleGo]
  | f + 1, x :: xs, r => by
    simp only [pyShuffleGo]
    have h1 := pyShuffleGo_perm f (pickIn x xs ((rnext r).1 % (xs.length + 1))).2 (rnext r).2
    have h2 := pickIn_perm x xs ((rnext r).1 % (xs.length + 1))
    exact (h1.cons _).trans h2

theorem pyShuffle_perm (xs : List α) (r : List Nat) : ((pyShuffle xs r).1).Perm xs :=
  pyShuffleGo_perm xs.length xs r

theorem pyShuffle_length (xs : List α) (r : List Nat) :
    (pyShuffle xs r).1.length = xs.length :=
  (pyShuffle_perm xs r).length_eq

/-- `' '.join words`. -/
def joinSpace (ws : List String) : String := String.intercalate " " ws

/-- The whitespace characters relevant to the source's inputs. -/
def isWsChar (c : Char) : Bool := c = ' ' ∨ c = '\t' ∨ c = '\n' ∨ c = '\r'

/-- Python `str.strip()` (structural, so that the kernel can evaluate it). -/
def pyStrip (s : String) : String :=
  String.mk (((s.data.dropWhile isWsChar).reverse.dropWhile isWsChar).reverse)

/-- Python `str.lower()`. -/
def pyLower (s : String) : String := String.mk (s.data.map Char.toLower)

/-- Python slicing `s[:n]` (by characters, as for the source's inputs). -/
def pyTake (s : String) (n : Nat) : String := String.mk (s.data.take n)

/-- Split a character list on the newline character. -/
def splitNlGo : List Char → List Char → List String
  | acc, [] => [String.mk acc.reverse]
  | acc, c :: rest =>
    if c = '\n' then String.mk acc.reverse :: splitNlGo [] rest
    else splitNlGo (c :: acc) rest

/-- Python `str.splitlines()` restricted to newline separators (the only
separator occurring in the modelled responses). -/
def splitNl (s : String) : List String := splitNlGo [] s.data

/-- Python `str.split()` with no separator: tokens separated by whitespace
runs, empty fragments dropped. -/
def pySplitCh : List Char → List Char → List String
  | acc, [] => if acc = [] then [] else [String.mk acc.reverse]
  | acc, c :: rest =>
    if isWsChar c then
      if acc = [] then pySplitCh [] rest
      else String.mk acc.reverse :: pySplitCh [] rest
    else pySplitCh (c :: acc) rest

/-- Python `str.split()` with no separator. -/
def pySplit (s : String) : List String := pySplitCh [] s.data

/-- Does the character list `n` occur as a prefix of `h`? -/
def chStartsWith : List Char → List Char → Bool
  | [], _ => true
  | _ :: _, [] => false
  | a :: as, b :: bs => a = b && chStartsWith as bs

/-- Does `n` occur as a contiguous sublist of `h`? -/
def chOccurs (n : List Char) : List Char → Bool
  | [] => n.isEmpty
  | c :: rest => chStartsWith n (c :: rest) || chOccurs n rest

/-- Python substring test `needle in hay`. -/
def pySubstr (needle hay : String) : Bool := chOccurs needle.data hay.data

/-- Python set insertion on a list model: add the element if absent. -/
def pyInsert [DecidableEq α] (x : α) (s : List α) : List α :=
  if x ∈ s then s else s ++ [x]

/-- Python set construction from a list: keep first occurrences. -/
def pySet [DecidableEq α] : List α → List α
  | [] => []
  | x :: xs => let t := pySet xs; if x ∈ t then t else x :: t

/-- `[l.strip() for l in raw.strip().splitlines() if l.strip()]` — the
non-blank stripped lines of a raw response (newline-separated). -/
def stripLines (raw : String) : List String :=
  ((splitNl (pyStrip raw)).map pyStrip).filter (fun l => l ≠ "")

/-- `parse_dialogue_context` inner pairing loop: consume the line list two at
a time; the trailing unpaired line gets an empty partner and is dropped by the
both-non-empty test. -/
def pairUpSrc : List String → List (String × String)
  | en :: ml :: rest =>
    if en ≠ "" ∧ ml ≠ "" then (en, ml) :: pairUpSrc rest else pairUpSrc rest
  | [en] => if en ≠ "" ∧ ("" : String) ≠ "" then [(en, "")] else []
  | [] => []

/-- `parse_dialogue_context(raw_text)` : Gemini response → (EN, ML) pairs. -/
def parse_dialogue_context (raw : String) : List (String × String) :=
  pairUpSrc (stripLines raw)

/-- Modelled from the spec's words (§4.3/§8): consume the line list in
consecutive pairs, dropping a trailing odd line.  Used only to state the
refinement for C8. -/
def specPairUp : List String → List (String × String)
  | a :: b :: rest => (a, b) :: specPairUp rest
  | [_] => []
  | [] => []

theorem stripLines_ne_empty (raw : String) : ∀ l ∈ stripLines raw, l ≠ "" := by
  intro l hl
  have := List.of_mem_filter hl
  simpa using this

theorem pairUpSrc_eq_spec : ∀ ls : List String, (∀ l ∈ ls, l ≠ "") →
    pairUpSrc ls = specPairUp ls
  | [], _ => rfl
  | [a], _ => by simp [pairUpSrc, specPairUp]
  | a :: b :: rest, h => by
    have ha : a ≠ "" := h a (by simp)
    have hb : b ≠ "" := h b (by simp)
    have ht : ∀ l ∈ rest, l ≠ "" := fun l hl => h l (by simp [hl])
    simp [pairUpSrc, specPairUp, ha, hb, pairUpSrc_eq_spec rest ht]

theorem specPairUp_length : ∀ ls : List String, (specPairUp ls).length = ls.length / 2
  | [] => by simp [specPairUp]
  | [_] => by simp [specPairUp]
  | _ :: _ :: rest => by
    simp [specPairUp, specPairUp_length rest]
    omega

theorem parse_eq_specPairUp (raw : String) :
    parse_dialogue_context raw = specPairUp (stripLines raw) :=
  pairUpSrc_eq_spec (stripLines raw) (stripLines_ne_empty raw)

/-- C8: for a raw text with `2k` non-blank lines, `parse_dialogue_context`
returns exactly `k` pairs, pairing consecutive non-blank lines (even index =
source, odd index = target, both non-empty after stripping); a trailing
unpaired line is discarded and blank lines are ignored entirely. -/
theorem c8_parse_pairing (raw : String) (k : Nat) (h : (stripLines raw).length = 2 * k) :
    (parse_dialogue_context raw).length = k ∧
    parse_dialogue_context raw = specPairUp (stripLines raw) := by
  refine ⟨?_, parse_eq_specPairUp raw⟩
  rw [parse_eq_specPairUp, specPairUp_length, h]
  omega

/-- Witness for C8 at a concrete raw text with a blank line and a trailing
unpaired line. -/
theorem c8_parse_pairing_witness :
    (stripLines "Hello there\nHai\n\nHow are you\nSukhamano\nodd tail").length = 2 * 2 + 1 ∧
    (stripLines "Hello there\nHai\n\nHow are you\nSukhamano").length = 2 * 2 ∧
    (parse_dialogue_context "Hello there\nHai\n\nHow are you\nSukhamano").length = 2 ∧
    parse_dialogue_context "Hello there\nHai\n\nHow are you\nSukhamano" =
      [("Hello there", "Hai"), ("How are you", "Sukhamano")] :=
  ⟨by decide, by decide,
   (c8_parse_pairing "Hello there\nHai\n\nHow are you\nSukhamano" 2 (by decide)).1, by decide⟩

/-! ## Deduplication engine (`main`, the uniqueness check around line 626) -/

/-- `set([en.lower().strip() for en, ml in pairs])` — the dedup fingerprint
of a candidate or accepted context. -/
def curLines (pairs : List (String × String)) : List String :=
  pySet (pairs.map (fun p => pyStrip (pyLower p.1)))

/-- `overlap = len(current_lines & used_lines)`. -/
def setOverlap (a b : List String) : Nat :=
  (a.filter (fun x => decide (x ∈ b))).length

/-- The near-duplicate check of `main`: some accepted context's fingerprint
overlaps the candidate lines in more than `0.3 * len(current_lines)`
elements (the float threshold is modelled exactly as `10 * overlap >
3 * len`, which agrees with the IEEE evaluation at all inputs relevant
here). -/
def is_duplicate_check (cand : List String) (used : List (List (String × String))) : Bool :=
  used.any (fun ctx => decide (3 * cand.length < 10 * setOverlap cand (curLines ctx)))

/-- The accepted fingerprint context of the claim:
source lines {"hello", "how are you"}. -/
def fprHello : List (String × String) := [("hello", "x"), ("how are you", "y")]

/-- The claim's first candidate: source lines {"hello", "what's up", "see you"}. -/
def candWhatsUp : List (String × String) :=
  [("hello", "a"), ("what\x27s up", "b"), ("see you", "c")]

/-- The claim's second candidate: source lines {"hello", "how are you", "bye"}. -/
def candBye : List (String × String) :=
  [("hello", "a"), ("how are you", "b"), ("bye", "c")]

theorem thresholdQ (n ov : Nat) : ((3 : ℚ) / 10) * n < ov ↔ 3 * n < 10 * ov := by
  rw [div_mul_eq_mul_div, div_lt_iff₀ (by norm_num : (0 : ℚ) < 10), mul_comm (ov : ℚ) 10]
  constructor
  · intro h
    exact_mod_cast h
  · intro h
    exact_mod_cast h

/-- C2 counterexample: the candidate with source lines
{"hello", "what's up", "see you"} (overlap 1, |candidate| = 3, threshold 0.9)
IS flagged by the code, since `1 > 0.9`; the claim says it is not flagged. -/
theorem c2_dedup_counterexample :
    setOverlap (curLines candWhatsUp) (curLines fprHello) = 1 ∧
    (curLines candWhatsUp).length = 3 ∧
    is_duplicate_check (curLines candWhatsUp) [fprHello] = true := by
  refine ⟨by decide, by decide, by decide⟩

/-- C2 amended: the check flags a candidate iff some previously accepted
fingerprint F satisfies `|candidate ∩ F| > 0.3 * |candidate|`; against the
fingerprint {"hello", "how are you"} BOTH of the claim's candidates are
flagged (overlap 1 > 0.9 and overlap 2 > 0.9). -/
theorem c2_dedup_amended :
    (∀ (cand : List (String × String)) (used : List (List (String × String))),
      is_duplicate_check (curLines cand) used = true ↔
        ∃ ctx ∈ used,
          ((3 : ℚ) / 10) * (curLines cand).length <
            (setOverlap (curLines cand) (curLines ctx) : ℚ)) ∧
    is_duplicate_check (curLines candWhatsUp) [fprHello] = true ∧
    is_duplicate_check (curLines candBye) [fprHello] = true := by
  refine ⟨?_, by decide, by decide⟩
  intro cand used
  simp only [is_duplicate_check, List.any_eq_true, decide_eq_true_eq]
  constructor
  · rintro ⟨ctx, hmem, hlt⟩
    exact ⟨ctx, hmem, (thresholdQ _ _).mpr hlt⟩
  · rintro ⟨ctx, hmem, hlt⟩
    exact ⟨ctx, hmem, (thresholdQ _ _).mp hlt⟩

/-! ## Data model of the synthesizer (`app.models.enums`, quiz drafts) -/

inductive QuestionType
  | multiple_choice_single
  | multiple_choice_multi
  | true_false
  | text_input
  | ordering
deriving DecidableEq

inductive LearningLevel
  | beginner
  | intermediate
  | advanced
deriving DecidableEq

/-- `LearningLevel.value` (the enum's string value). -/
def levelValue : LearningLevel → String
  | .beginner => "beginner"
  | .intermediate => "intermediate"
  | .advanced => "advanced"

/-- `level.value.title()`. -/
def levelTitle : LearningLevel → String
  | .beginner => "Beginner"
  | .intermediate => "Intermediate"
  | .advanced => "Advanced"

/-- One answer dict as built by `build_questions_for_context`; the
`order_index` key is present only for ordering-chunk answers. -/
structure AnswerDraft where
  text_en : String
  text_ml : String
  is_correct : Bool
  order_index : Option Nat
deriving DecidableEq

/-- The fields of the `QuizQuestion` draft that the synthesizer fills in. -/
structure QuizQuestionDraft where
  question_type : QuestionType
  prompt_en : String
  prompt_ml : String
  difficulty_level : LearningLevel
  xp_value : Nat
  order_index : Nat
deriving DecidableEq

/-- One `{"qq": q, "answers": answers}` entry of the synthesizer's result. -/
structure QuestionSet where
  qq : QuizQuestionDraft
  answers : List AnswerDraft
deriving DecidableEq

/-- A line pair (EN source line, ML target line). -/
abbrev LinePair := String × String

/-- The external Gemini generator as seen by the synthesizer: the raw text of
the response for the two kinds of wrong-answer prompts (keyed by the data the
prompt is built from), `none` standing for a raised request exception. -/
structure GenOracle where
  genWrong : String → LearningLevel → Nat → Option String
  genMultiWrong : String → LearningLevel → Nat → Option String

/-- `generate_wrong_answers(correct_answer, context_level, count)`: parse the
response into non-blank lines and keep the first `count`; an exception yields
`[]`. -/
def generate_wrong_answers (o : GenOracle) (correct : String) (level : LearningLevel)
    (count : Nat) : List String :=
  match o.genWrong correct level count with
  | none => []
  | some resp => (stripLines resp).take count

/-- The fixed per-context question plan (lines 149-162 of the source):
3 single-choice, 2 multi-choice, 2 true/false, 2 text-input, 3 ordering. -/
def questionPlan : List QuestionType :=
  [.multiple_choice_single, .multiple_choice_single, .multiple_choice_single,
   .multiple_choice_multi, .multiple_choice_multi,
   .true_false, .true_false,
   .text_input, .text_input,
   .ordering, .ordering, .ordering]

/-- `(qtype, en_ml_pair[0][:30], context_level)` — the per-question dedup key. -/
def questionKey (qtype : QuestionType) (p : LinePair) (level : LearningLevel) :
    QuestionType × String × LearningLevel :=
  (qtype, pyTake p.1 30, level)

abbrev QKey := QuestionType × String × LearningLevel

/-- The unique-question retry loop (source lines 171-180): re-choose the line
pair while its key was already used, accepting unconditionally on the fifth
attempt (`attempt == max_attempts - 1`).  The fuel is the number of attempts
still available after the current one (`4 - attempt`, so fuel 0 is exactly
the forced-accept final attempt).  Returns the chosen pair, the updated key
set, the remaining stream and the accepting attempt number. -/
def chooseQuestionPairGo (pairs : List LinePair) (qtype : QuestionType)
    (level : LearningLevel) : Nat → Nat → List QKey → List Nat →
    LinePair × List QKey × List Nat × Nat
  | 0, attempt, used, r =>
    let c := pyChoicePair pairs ("", "") r
    (c.1, pyInsert (questionKey qtype c.1 level) used, c.2, attempt)
  | fuel + 1, attempt, used, r =>
    let c := pyChoicePair pairs ("", "") r
    let key := questionKey qtype c.1 level
    if key ∈ used ∧ attempt < 4 then
      chooseQuestionPairGo pairs qtype level fuel (attempt + 1) used c.2
    else
      (c.1, pyInsert key used, c.2, attempt)

/-- The unique-question retry loop entered at attempt 0 with its full budget
of 5 attempts. -/
def chooseQuestionPair (pairs : List LinePair) (qtype : QuestionType)
    (level : LearningLevel) (used : List QKey) (r : List Nat) :
    LinePair × List QKey × List Nat × Nat :=
  chooseQuestionPairGo pairs qtype level 4 0 used r

/-! ## Per-type question construction -/

/-- The first distractor-collection loop of the single-choice branch:
append unseen candidates, stopping as soon as three are collected. -/
def addUpTo3 : List String → List String → List String
  | acc, [] => acc
  | acc, d :: rest =>
    let acc' := if d ∈ acc then acc else acc ++ [d]
    if 3 ≤ acc'.length then acc' else addUpTo3 acc' rest

/-- The generated-distractor loop of the single-choice branch: additionally
skip candidates equal to the correct answer. -/
def addUpTo3Excl (correct : String) : List String → List String → List String
  | acc, [] => acc
  | acc, d :: rest =>
    let acc' := if d ∉ acc ∧ d ≠ correct then acc ++ [d] else acc
    if 3 ≤ acc'.length then acc' else addUpTo3Excl correct acc' rest

/-- `multiple_choice_single` branch (source lines 187-225). -/
def buildSingleChoice (o : GenOracle) (pairs : List LinePair) (p : LinePair)
    (level : LearningLevel) (r : List Nat) :
    String × String × List AnswerDraft × List Nat :=
  let corrects : List AnswerDraft := [⟨p.2, p.2, true, none⟩]
  let sel0 : List String :=
    if 1 < pairs.length then
      addUpTo3 [] ((pairs.filter (fun q => q.2 ≠ p.2)).map (fun q => q.2))
    else []
  let sel : List String :=
    if sel0.length < 3 then
      addUpTo3Excl p.2 sel0 (generate_wrong_answers o p.2 level (3 - sel0.length))
    else sel0
  let distractors := (sel.take 3).map (fun d => (⟨d, "", false, none⟩ : AnswerDraft))
  let sh := pyShuffle (corrects ++ distractors) r
  ("What does this mean: \x27" ++ p.1 ++ "\x27?",
   "Ithu enthaanu artham: \x27" ++ p.1 ++ "\x27?", sh.1, sh.2)

/-- The wrong-answer loop over the remaining context pairs of the
multi-choice branch; the stop test runs after each element. -/
def multiWrongFromPairs : List String → List AnswerDraft → List LinePair →
    List String × List AnswerDraft
  | used, sel, [] => (used, sel)
  | used, sel, q :: rest =>
    let key := pyStrip (pyLower q.1)
    let hit := key ∉ used ∧ q.1 ∉ sel.map (fun w => w.text_en)
    let used' := if hit then pyInsert key used else used
    let sel' := if hit then sel ++ [(⟨q.1, q.2, false, none⟩ : AnswerDraft)] else sel
    if 2 ≤ sel'.length then (used', sel') else multiWrongFromPairs used' sel' rest

/-- The wrong-answer loop over generated phrases of the multi-choice branch. -/
def multiWrongFromGen : List String → List AnswerDraft → List String →
    List String × List AnswerDraft
  | used, sel, [] => (used, sel)
  | used, sel, phrase :: rest =>
    let key := pyStrip (pyLower phrase)
    let hit := key ∉ used
    let used' := if hit then pyInsert key used else used
    let sel' := if hit then sel ++ [(⟨phrase, "", false, none⟩ : AnswerDraft)] else sel
    if 2 ≤ sel'.length then (used', sel') else multiWrongFromGen used' sel' rest

/-- `multiple_choice_multi` branch (source lines 228-277). -/
def buildMultiChoice (o : GenOracle) (pairs : List LinePair) (level : LearningLevel)
    (r : List Nat) : String × String × List AnswerDraft × List Nat :=
  let numCorrect := min 2 pairs.length
  let corrects : List AnswerDraft :=
    (pairs.take numCorrect).map (fun q => ⟨q.1, q.2, true, none⟩)
  let used0 := (pairs.take numCorrect).map (fun q => pyStrip (pyLower q.1))
  let fromPairs := multiWrongFromPairs used0 [] (pairs.drop numCorrect)
  let selected :=
    if fromPairs.2.length < 2 then
      let sample := match corrects.head? with
        | some c => c.text_en
        | none => ""
      if sample ≠ "" then
        match o.genMultiWrong sample level (2 - fromPairs.2.length) with
        | none => fromPairs.2
        | some resp =>
          (multiWrongFromGen fromPairs.1 fromPairs.2
            ((stripLines resp).take (2 - fromPairs.2.length))).2
      else fromPairs.2
    else fromPairs.2
  let sh := pyShuffle (corrects ++ selected) r
  ("Which of these phrases appear in the dialogue?",
   "Ivayil ethokkeya samsaarathil ullathu?", sh.1, sh.2)

/-- The greeting keyword allowlist of the true/false branch. -/
def greetingWords : List String :=
  ["hello", "hi", "good morning", "good evening", "namaste", "namaskaram"]

/-- `true_false` branch (source lines 280-288); note that it draws its own
line, independent of the pair chosen by the retry loop. -/
def buildTrueFalse (pairs : List LinePair) (r : List Nat) :
    String × String × List AnswerDraft × List Nat :=
  let c := pyChoicePair pairs ("", "") r
  let enChoice := c.1.1
  let g := greetingWords.any (fun w => pySubstr w (pyLower enChoice))
  ("This phrase is a greeting: \x27" ++ enChoice ++ "\x27",
   "Ee vaakya oru abhivaadanamanu: \x27" ++ enChoice ++ "\x27",
   [⟨"True", "Sheriyaanu", g, none⟩, ⟨"False", "Thettaanu", !g, none⟩], c.2)

/-- `text_input` branch (source lines 291-303): blank a non-edge word when
the line has at least four words, else a translate-the-line prompt. -/
def buildTextInput (p : LinePair) (r : List Nat) :
    String × String × List AnswerDraft × List Nat :=
  let words := pySplit p.1
  if 4 ≤ words.length then
    let bi := pyRandint 1 (words.length - 2) r
    let blanked := joinSpace (words.take bi.1 ++ ["____"] ++ words.drop (bi.1 + 1))
    ("Fill in the blank: " ++ blanked,
     "Ozhivaayi ullathu nirakkuka: " ++ blanked,
     [⟨words.getD bi.1 "", "", true, none⟩], bi.2)
  else
    ("Translate this to Malayalam (romanized): " ++ p.1,
     "Ithu Malayalathil ezhuthuka (English akshrangalil): " ++ p.1,
     [⟨p.2, p.2, true, none⟩], r)

/-! ## Ordering branch -/

/-- Fuel-indexed body of the chunk grouping (fuel = list length, which
always suffices since each step consumes at least one element). -/
def chunkJoinGo (s : Nat) : Nat → List String → List String
  | _, [] => []
  | 0, _ :: _ => []
  | fuel + 1, w :: rest =>
    joinSpace ((w :: rest).take s) :: chunkJoinGo s fuel (rest.drop (s - 1))

/-- `range(0, len(words), chunk_size)` grouping, joining each group with
spaces; `s` is always one of 2..5 in the source. -/
def chunkJoin (s : Nat) (ws : List String) : List String :=
  chunkJoinGo s ws.length ws

/-- Chunk-size draw by difficulty (source lines 313-321). -/
def chunkSizeFor (level : LearningLevel) (r : List Nat) : Nat × List Nat :=
  match level with
  | .beginner => pyChoice [2, 3] 0 r
  | .intermediate => pyChoice [3, 4] 0 r
  | .advanced => pyChoice [4, 5] 0 r

/-- Chunk computation of the ordering branch (source lines 323-345), given
the drawn sentence and chunk size.  Returns the chunks together with the
possibly re-chosen sentence (`sentence_to_use` is reassigned when the drawn
line is too short and another context line with at least three words is
found). -/
def orderingChunksCore (pairs : List LinePair) (sentence : String) (csize : Nat) :
    List String × String :=
  let words := pySplit sentence
  if csize * 2 ≤ words.length then
    ((chunkJoin csize words).filter (fun c => c ≠ ""), sentence)
  else if 3 ≤ words.length then
    (words, sentence)
  else
    match pairs.find? (fun q => 3 ≤ (pySplit q.1).length) with
    | some q => (pySplit q.1, q.1)
    | none => (if 2 ≤ words.length then words else [sentence], sentence)

/-- The `while shuffled == correct_order and attempts < 10` re-shuffle loop. -/
def reshuffleLoop : Nat → List String → List String → List Nat → List String × List Nat
  | 0, _, sh, r => (sh, r)
  | fuel + 1, correct, sh, r =>
    if sh = correct then
      let p := pyShuffle sh r
      reshuffleLoop fuel correct p.1 p.2
    else (sh, r)

theorem reshuffleLoop_perm : ∀ (fuel : Nat) (correct sh : List String) (r : List Nat),
    ((reshuffleLoop fuel correct sh r).1).Perm sh
  | 0, _, sh, r => by simp [reshuffleLoop]
  | fuel + 1, correct, sh, r => by
    simp only [reshuffleLoop]
    split
    · exact (reshuffleLoop_perm fuel correct (pyShuffle sh r).1 (pyShuffle sh r).2).trans
        (pyShuffle_perm sh r)
    · exact List.Perm.refl sh

/-- First-occurrence index (Python `list.index`); returns the length when the
element is absent (never the case at the source's call sites). -/
def pyIndexOf [DecidableEq α] : List α → α → Nat
  | [], _ => 0
  | y :: ys, x => if y = x then 0 else pyIndexOf ys x + 1

/-- Malayalam chunk slicing of the ordering branch (source lines 374-383). -/
def mlChunksOf (mlWords : List String) (n : Nat) : List String :=
  let c := mlWords.length / n
  (List.range n).map (fun i =>
    let start := i * c
    let stop := if i < n - 1 then start + c else mlWords.length
    joinSpace ((mlWords.drop start).take (stop - start)))

/-- The sentence draw, chunk-size draw and chunk computation of the ordering
branch (source lines 309-345): returns (chunks, re-chosen sentence,
remaining stream). -/
def orderingChunksAt (pairs : List LinePair) (p : LinePair) (level : LearningLevel)
    (r : List Nat) : List String × String × List Nat :=
  let sc := pyChoicePair pairs (p.1, "") r
  let cs := chunkSizeFor level sc.2
  let core := orderingChunksCore pairs sc.1.1 cs.1
  (core.1, core.2, cs.2)

/-- The answer construction of the ordering branch (source lines 354-398):
shuffle the chunks away from the correct order (up to 10 re-shuffles), slice
the matching Malayalam line, and record each chunk's first-occurrence index
in the correct order as its `order_index`. -/
def orderingAnswers (pairs : List LinePair) (chunks : List String) (sentence : String)
    (r : List Nat) : List AnswerDraft × List Nat :=
  let sh := reshuffleLoop 10 chunks chunks r
  let mlS := match pairs.find? (fun q => q.1 = sentence) with
    | some q => q.2
    | none => ""
  let n := chunks.length
  let mlWords := pySplit mlS
  let mlChunks0 := if mlS ≠ "" ∧ n ≤ mlWords.length then mlChunksOf mlWords n else []
  let mlChunks := if mlChunks0.length ≠ n then List.replicate n "" else mlChunks0
  let answers := sh.1.map (fun c =>
    (⟨c, mlChunks.getD (pyIndexOf chunks c) "", true, some (pyIndexOf chunks c)⟩ :
      AnswerDraft))
  (answers, sh.2)

/-- `ordering` branch (source lines 305-398). -/
def buildOrdering (pairs : List LinePair) (p : LinePair) (level : LearningLevel)
    (r : List Nat) : String × String × List AnswerDraft × List Nat :=
  let t := orderingChunksAt pairs p level r
  if t.1.length < 2 then
    ("Translate this to Malayalam (romanized): " ++ p.1,
     "Ithu Malayalathil ezhuthuka (English akshrangalil): " ++ p.1,
     [⟨p.2, p.2, true, none⟩], t.2.2)
  else
    let ans := orderingAnswers pairs t.1 t.2.1 t.2.2
    ("Arrange these words to form the correct sentence:",
     "Ee vaakkangale sheriyaya kramathil aayi oru poornamaya vaakya undaakkuka:",
     ans.1, ans.2)

/-! ## The synthesizer main loop -/

/-- Dispatch on the (shuffled) plan entry. -/
def buildBranch (o : GenOracle) (pairs : List LinePair) (p : LinePair)
    (qtype : QuestionType) (level : LearningLevel) (r : List Nat) :
    String × String × List AnswerDraft × List Nat :=
  match qtype with
  | .multiple_choice_single => buildSingleChoice o pairs p level r
  | .multiple_choice_multi => buildMultiChoice o pairs level r
  | .true_false => buildTrueFalse pairs r
  | .text_input => buildTextInput p r
  | .ordering => buildOrdering pairs p level r

/-- `xp_values.get(context_level, 10)`. -/
def xpFor : LearningLevel → Nat
  | .beginner => 10
  | .intermediate => 20
  | .advanced => 30

/-- Python `str.capitalize()`. -/
def pyCapitalize (s : String) : String :=
  match s.data with
  | [] => ""
  | c :: rest => String.mk (c.toUpper :: rest.map Char.toLower)

/-- The `if not prompt_en` default (source lines 400-403); unreachable in
practice since every branch produces a non-empty prompt. -/
def defaultPromptEn (topic : String) (level : LearningLevel) : String :=
  "About: " ++ pyCapitalize topic ++ " (level " ++ levelValue level ++ ")"

def defaultPromptMl (topic : String) (level : LearningLevel) : String :=
  "Vishayam: " ++ pyCapitalize topic ++ " (level " ++ levelValue level ++ ")"

/-- The `for idx, qtype in enumerate(question_plan)` loop body, folded over
the (already shuffled) plan. -/
def buildLoop (o : GenOracle) (pairs : List LinePair) (topic : String)
    (level : LearningLevel) : List QuestionType → Nat → List QKey → List Nat →
    List QuestionSet × List QKey × List Nat
  | [], _, used, r => ([], used, r)
  | qtype :: rest, idx, used, r =>
    let ch := chooseQuestionPair pairs qtype level used r
    let br := buildBranch o pairs ch.1 qtype level ch.2.2.1
    let pen := if br.1 = "" then defaultPromptEn topic level else br.1
    let pml := if br.2.1 = "" then defaultPromptMl topic level else br.2.1
    let q : QuizQuestionDraft := ⟨qtype, pen, pml, level, xpFor level, idx⟩
    let t := buildLoop o pairs topic level rest (idx + 1) ch.2.1 br.2.2.2
    (⟨q, br.2.2.1⟩ :: t.1, t.2.1, t.2.2)

/-- `build_questions_for_context` generalized over the initial used-key set
(the source initializes it to the empty set on every call). -/
def build_questions_for_context_from (o : GenOracle) (used0 : List QKey)
    (pairs : List LinePair) (topic : String) (level : LearningLevel) (r : List Nat) :
    List QuestionSet × List QKey × List Nat :=
  let sh := pyShuffle questionPlan r
  buildLoop o pairs topic level sh.1 0 used0 sh.2

/-- `build_questions_for_context(pairs, topic, context_level)` (source lines
134-427): shuffle the quota plan, then build one question per plan entry. -/
def build_questions_for_context (o : GenOracle) (pairs : List LinePair)
    (topic : String) (level : LearningLevel) (r : List Nat) :
    List QuestionSet × List QKey × List Nat :=
  build_questions_for_context_from o [] pairs topic level r

/-- A generation oracle whose every request raises (the synthesizer must
still complete). -/
def oracleNone : GenOracle := ⟨fun _ _ _ => none, fun _ _ _ => none⟩

/-! ## C1 / C5: quota invariant and totality of the synthesizer -/

theorem buildLoop_types (o : GenOracle) (pairs : List LinePair) (topic : String)
    (level : LearningLevel) (plan : List QuestionType) : ∀ (idx : Nat) (used : List QKey)
    (r : List Nat),
    ((buildLoop o pairs topic level plan idx used r).1).map (fun s => s.qq.question_type) =
      plan := by
  induction plan with
  | nil => intro idx used r; rfl
  | cons qtype rest ih =>
    intro idx used r
    simp only [buildLoop, List.map_cons]
    exact congrArg (qtype :: ·) (ih _ _ _)

theorem build_types_perm (o : GenOracle) (pairs : List LinePair) (topic : String)
    (level : LearningLevel) (used0 : List QKey) (r : List Nat) :
    (((build_questions_for_context_from o used0 pairs topic level r).1).map
      (fun s => s.qq.question_type)).Perm questionPlan := by
  simp only [build_questions_for_context_from]
  rw [buildLoop_types]
  exact pyShuffle_perm questionPlan r

theorem build_length_12 (o : GenOracle) (pairs : List LinePair) (topic : String)
    (level : LearningLevel) (used0 : List QKey) (r : List Nat) :
    (build_questions_for_context_from o used0 pairs topic level r).1.length = 12 := by
  have h := (build_types_perm o pairs topic level used0 r).length_eq
  simpa [questionPlan] using h

/-- C1: every per-context synthesis call returns exactly 12 question drafts
whose type multiset is {3 single-choice, 2 multi-choice, 2 true/false,
2 text-input, 3 ordering}, regardless of the plan shuffle (the random stream
is universally quantified and the shuffle model reaches every permutation). -/
theorem c1_quota_theorem (o : GenOracle) (pairs : List LinePair) (topic : String)
    (level : LearningLevel) (r : List Nat) (h : pairs ≠ []) :
    (build_questions_for_context o pairs topic level r).1.length = 12 ∧
    (((build_questions_for_context o pairs topic level r).1).map
        (fun s => s.qq.question_type)).count .multiple_choice_single = 3 ∧
    (((build_questions_for_context o pairs topic level r).1).map
        (fun s => s.qq.question_type)).count .multiple_choice_multi = 2 ∧
    (((build_questions_for_context o pairs topic level r).1).map
        (fun s => s.qq.question_type)).count .true_false = 2 ∧
    (((build_questions_for_context o pairs topic level r).1).map
        (fun s => s.qq.question_type)).count .text_input = 2 ∧
    (((build_questions_for_context o pairs topic level r).1).map
        (fun s => s.qq.question_type)).count .ordering = 3 := by
  have hperm := build_types_perm o pairs topic level [] r
  refine ⟨build_length_12 o pairs topic level [] r, ?_, ?_, ?_, ?_, ?_⟩ <;>
    rw [build_questions_for_context, hperm.count_eq] <;> decide

/-- Witness for C1 at a concrete non-empty pair list. -/
theorem c1_quota_witness :
    ([(("hello", "namaskaram") : LinePair)] ≠ []) ∧
    (build_questions_for_context oracleNone [("hello", "namaskaram")] "greetings"
      .beginner []).1.length = 12 :=
  ⟨by decide,
   (c1_quota_theorem oracleNone [("hello", "namaskaram")] "greetings" .beginner []
     (by decide)).1⟩

/-- C5 counterexample: on an EMPTY pair list the synthesizer does not signal
any error — it completes and returns 12 (degenerate) question drafts built
from empty strings, the first being a single-choice question about the empty
line.  No `EmptyContext` signal exists anywhere in the code. -/
theorem c5_empty_counterexample :
    (build_questions_for_context oracleNone [] "greetings" .beginner []).1.length = 12 ∧
    ((build_questions_for_context oracleNone [] "greetings" .beginner []).1.map
        (fun s => s.qq.prompt_en)).head? =
      some ("What does this mean: \x27\x27?") := by
  exact ⟨by decide, by decide⟩

/-- C5 amended: the synthesizer never fails at all — for EVERY input pair
sequence (empty included) every question-type branch bottoms out in a
terminal fallback and the call returns exactly 12 drafts; the empty input is
not rejected, it produces degenerate drafts built from empty strings. -/
theorem c5_total_amended (o : GenOracle) (pairs : List LinePair) (topic : String)
    (level : LearningLevel) (r : List Nat) :
    (build_questions_for_context o pairs topic level r).1.length = 12 :=
  build_length_12 o pairs topic level [] r

/-! ## C3: ordering question invariant -/

theorem pyIndexOf_getElem [DecidableEq α] :
    ∀ (l : List α), l.Nodup → ∀ (i : Nat) (hi : i < l.length), pyIndexOf l l[i] = i
  | [], _, i, hi => by simp at hi
  | y :: ys, h, 0, hi => by simp [pyIndexOf]
  | y :: ys, h, i + 1, hi => by
    have hlen : i < ys.length := by simpa using hi
    have hy : y ∉ ys := (List.nodup_cons.mp h).1
    have hmem : ys[i] ∈ ys := List.getElem_mem hlen
    have hne : y ≠ ys[i] := fun e => hy (e ▸ hmem)
    simp only [List.getElem_cons_succ, pyIndexOf, if_neg hne]
    rw [pyIndexOf_getElem ys (List.nodup_cons.mp h).2 i hlen]

theorem map_pyIndexOf_enum [DecidableEq α] (l : List α) (h : l.Nodup) :
    l.map (fun c => (pyIndexOf l c, c)) = l.enum := by
  apply List.ext_getElem
  · simp
  · intro i h1 h2
    simp only [List.getElem_map, List.getElem_enum]
    exact Prod.ext (pyIndexOf_getElem l h i (by simpa using h1)) rfl

/-- C3 counterexample: at pairs = [("a b a", "x y")] with level beginner and
an all-zero random stream, the three synthesized ordering-type questions all
carry order_index values [0, 1, 0] — NOT a permutation of 0..2 (the repeated
chunk "a" maps to its first occurrence twice), so sorting by order_index
yields "a a b", not the original "a b a"; moreover the presented order equals
the correct order (the 10 re-shuffles all returned the identity). -/
theorem c3_ordering_counterexample :
    ((build_questions_for_context oracleNone [("a b a", "x y")] "t" .beginner []).1.drop
        9).map (fun s => (s.qq.question_type, s.answers.map
          (fun a => (a.order_index.getD 0, a.text_en)))) =
      [(.ordering, [(0, "a"), (1, "b"), (0, "a")]),
       (.ordering, [(0, "a"), (1, "b"), (0, "a")]),
       (.ordering, [(0, "a"), (1, "b"), (0, "a")])] ∧
    ¬ (([((0 : Nat), "a"), (1, "b"), (0, "a")].map Prod.fst).Perm (List.range 3)) ∧
    ¬ (([((0 : Nat), "a"), (1, "b"), (0, "a")]).Perm (List.enum ["a", "b", "a"])) ∧
    ([((0 : Nat), "a"), (1, "b"), (0, "a")].map Prod.snd) = ["a", "b", "a"] := by
  exact ⟨by decide, by decide, by decide, by decide⟩

/-- C3 amended: for every synthesized ordering question whose chunk sequence
has no duplicates, the (order_index, text) pairs of its answers are exactly a
permutation of the enumerated chunk sequence — so order_index values form a
permutation of 0..n-1 and sorting by order_index reconstructs the chunk
sequence — and the presented answer texts are a permutation of the chunks
(possibly equal to them: the 10 re-shuffle attempts may all fail); each
answer's order_index is the first-occurrence index of its chunk.  When the
chunk computation yields fewer than 2 chunks, no ordering-chunk answers are
emitted at all: the branch degrades to the translate fallback with one
correct answer and no order_index. -/
theorem orderingAnswers_projections (pairs : List LinePair) (chunks : List String)
    (sentence : String) (r : List Nat) :
    ((orderingAnswers pairs chunks sentence r).1.map
        (fun a => (a.order_index.getD 0, a.text_en))) =
      (reshuffleLoop 10 chunks chunks r).1.map (fun c => (pyIndexOf chunks c, c)) ∧
    ((orderingAnswers pairs chunks sentence r).1.map (fun a => a.text_en)) =
      (reshuffleLoop 10 chunks chunks r).1 ∧
    (∀ a ∈ (orderingAnswers pairs chunks sentence r).1,
      a.order_index = some (pyIndexOf chunks a.text_en)) := by
  refine ⟨?_, ?_, ?_⟩
  · simp only [orderingAnswers, List.map_map]
    rfl
  · simp only [orderingAnswers, List.map_map]
    exact List.map_id' _
  · intro a ha
    simp only [orderingAnswers] at ha
    obtain ⟨c, _, rfl⟩ := List.mem_map.mp ha
    rfl

theorem buildOrdering_answers_eq (pairs : List LinePair) (p : LinePair)
    (level : LearningLevel) (r : List Nat)
    (h2 : 2 ≤ (orderingChunksAt pairs p level r).1.length) :
    (buildOrdering pairs p level r).2.2.1 =
      (orderingAnswers pairs (orderingChunksAt pairs p level r).1
        (orderingChunksAt pairs p level r).2.1 (orderingChunksAt pairs p level r).2.2).1 := by
  have hnl : ¬ ((orderingChunksAt pairs p level r).1.length < 2) := by omega
  simp only [buildOrdering, if_neg hnl]

theorem c3_ordering_amended (pairs : List LinePair) (p : LinePair)
    (level : LearningLevel) (r : List Nat)
    (hnd : (orderingChunksAt pairs p level r).1.Nodup) :
    (2 ≤ (orderingChunksAt pairs p level r).1.length →
      (((buildOrdering pairs p level r).2.2.1).map
          (fun a => (a.order_index.getD 0, a.text_en))).Perm
        ((orderingChunksAt pairs p level r).1.enum) ∧
      (((buildOrdering pairs p level r).2.2.1).map (fun a => a.text_en)).Perm
        ((orderingChunksAt pairs p level r).1) ∧
      (∀ a ∈ (buildOrdering pairs p level r).2.2.1,
        a.order_index = some (pyIndexOf (orderingChunksAt pairs p level r).1 a.text_en))) ∧
    ((orderingChunksAt pairs p level r).1.length < 2 →
      (buildOrdering pairs p level r).2.2.1 = [⟨p.2, p.2, true, none⟩]) := by
  constructor
  · intro h2
    rw [buildOrdering_answers_eq pairs p level r h2]
    have hproj := orderingAnswers_projections pairs (orderingChunksAt pairs p level r).1
      (orderingChunksAt pairs p level r).2.1 (orderingChunksAt pairs p level r).2.2
    have hperm : ((reshuffleLoop 10 (orderingChunksAt pairs p level r).1
        (orderingChunksAt pairs p level r).1 (orderingChunksAt pairs p level r).2.2).1).Perm
        (orderingChunksAt pairs p level r).1 := reshuffleLoop_perm 10 _ _ _
    refine ⟨?_, ?_, hproj.2.2⟩
    · rw [hproj.1]
      exact map_pyIndexOf_enum (orderingChunksAt pairs p level r).1 hnd ▸ (hperm.map _)
    · rw [hproj.2.1]
      exact hperm
  · intro h2
    simp only [buildOrdering, if_pos h2]

/-- Witness for C3 at a six-word sentence whose chunks "a b", "c d", "e f"
are pairwise distinct. -/
theorem c3_ordering_witness :
    (orderingChunksAt [("a b c d e f", "x y z")] ("a b c d e f", "x y z") .beginner
      []).1.Nodup ∧
    2 ≤ (orderingChunksAt [("a b c d e f", "x y z")] ("a b c d e f", "x y z") .beginner
      []).1.length ∧
    (((buildOrdering [("a b c d e f", "x y z")] ("a b c d e f", "x y z") .beginner
        []).2.2.1).map (fun a => (a.order_index.getD 0, a.text_en))).Perm
      ((orderingChunksAt [("a b c d e f", "x y z")] ("a b c d e f", "x y z") .beginner
        []).1.enum) :=
  ⟨by decide, by decide,
   ((c3_ordering_amended [("a b c d e f", "x y z")] ("a b c d e f", "x y z") .beginner []
     (by decide)).1 (by decide)).1⟩

/-! ## C9: text-input construction -/

/-- C9: when the chosen source line has at least 4 words (the source's
threshold, uniform over levels), `buildTextInput` blanks exactly one
non-edge word (index strictly between first and last) and the single correct
answer is that word verbatim; otherwise it degrades to the translate-the-line
prompt whose single correct answer is the paired target line — reachable for
any pair, so short-lined contexts never fail. -/
theorem c9_text_input (p : LinePair) (r : List Nat) :
    (4 ≤ (pySplit p.1).length →
      ∃ i, 1 ≤ i ∧ i + 1 < (pySplit p.1).length ∧
        (buildTextInput p r).1 = "Fill in the blank: " ++
          joinSpace ((pySplit p.1).take i ++ ["____"] ++ (pySplit p.1).drop (i + 1)) ∧
        (buildTextInput p r).2.1 = "Ozhivaayi ullathu nirakkuka: " ++
          joinSpace ((pySplit p.1).take i ++ ["____"] ++ (pySplit p.1).drop (i + 1)) ∧
        (buildTextInput p r).2.2.1 = [⟨(pySplit p.1).getD i "", "", true, none⟩]) ∧
    ((pySplit p.1).length < 4 →
      (buildTextInput p r).1 = "Translate this to Malayalam (romanized): " ++ p.1 ∧
      (buildTextInput p r).2.2.1 = [⟨p.2, p.2, true, none⟩]) := by
  constructor
  · intro h4
    refine ⟨(pyRandint 1 ((pySplit p.1).length - 2) r).1, ?_, ?_, ?_, ?_, ?_⟩
    · simp [pyRandint]
    · simp only [pyRandint]
      have hmod : (rnext r).1 % ((pySplit p.1).length - 2 - 1 + 1) <
          (pySplit p.1).length - 2 - 1 + 1 := Nat.mod_lt _ (by omega)
      omega
    · simp only [buildTextInput, if_pos h4]
    · simp only [buildTextInput, if_pos h4]
    · simp only [buildTextInput, if_pos h4]
  · intro hlt
    have h4 : ¬ (4 ≤ (pySplit p.1).length) := by omega
    simp [buildTextInput, if_neg h4]

/-- Witness for C9: both the blank case (4 words, blanked index 1) and the
translate fallback (2 words). -/
theorem c9_text_input_witness :
    (4 ≤ (pySplit "hello there my friend").length ∧
      ∃ i, 1 ≤ i ∧ i + 1 < (pySplit "hello there my friend").length ∧
        (buildTextInput ("hello there my friend", "aa") []).1 = "Fill in the blank: " ++
          joinSpace ((pySplit "hello there my friend").take i ++ ["____"] ++
            (pySplit "hello there my friend").drop (i + 1)) ∧
        (buildTextInput ("hello there my friend", "aa") []).2.1 =
          "Ozhivaayi ullathu nirakkuka: " ++
          joinSpace ((pySplit "hello there my friend").take i ++ ["____"] ++
            (pySplit "hello there my friend").drop (i + 1)) ∧
        (buildTextInput ("hello there my friend", "aa") []).2.2.1 =
          [⟨(pySplit "hello there my friend").getD i "", "", true, none⟩]) ∧
    ((pySplit "hello there").length < 4 ∧
      (buildTextInput ("hello there", "bb") []).1 =
        "Translate this to Malayalam (romanized): " ++ "hello there" ∧
      (buildTextInput ("hello there", "bb") []).2.2.1 = [⟨"bb", "bb", true, none⟩]) :=
  ⟨⟨by decide, (c9_text_input ("hello there my friend", "aa") []).1 (by decide)⟩,
   ⟨by decide, (c9_text_input ("hello there", "bb") []).2 (by decide)⟩⟩

/-! ## C10: per-question dedup key lifetime and retry budget -/

theorem chooseQuestionPairGo_spec (pairs : List LinePair) (qtype : QuestionType)
    (level : LearningLevel) : ∀ (fuel attempt : Nat) (used : List QKey) (r : List Nat),
    attempt + fuel = 4 →
    ((chooseQuestionPairGo pairs qtype level fuel attempt used r).2.2.2 ≤ 4 ∧
     (questionKey qtype (chooseQuestionPairGo pairs qtype level fuel attempt used r).1
        level ∈ used →
       (chooseQuestionPairGo pairs qtype level fuel attempt used r).2.2.2 = 4) ∧
     (chooseQuestionPairGo pairs qtype level fuel attempt used r).2.1 =
       pyInsert (questionKey qtype
         (chooseQuestionPairGo pairs qtype level fuel attempt used r).1 level) used) := by
  intro fuel
  induction fuel with
  | zero =>
    intro attempt used r hk
    have ha : attempt = 4 := by omega
    subst ha
    exact ⟨le_refl 4, fun _ => rfl, rfl⟩
  | succ n ih =>
    intro attempt used r hk
    simp only [chooseQuestionPairGo]
    split
    · exact ih (attempt + 1) used _ (by omega)
    · rename_i hcond
      refine ⟨?_, ?_, rfl⟩
      · show attempt ≤ 4
        omega
      · intro hin
        exact absurd ⟨hin, by omega⟩ hcond

/-- C10 amended: within ONE synthesizer call, the retry loop accepts a pair
whose key is already in the used-key set only on the final (5th) attempt,
always terminates within the 5-attempt budget, and records the accepted key;
and the used-key set's lifetime is a single per-context call —
`build_questions_for_context` always starts from the empty set (a lesson's
three contexts each get a fresh set). -/
theorem c10_key_amended (pairs : List LinePair) (qtype : QuestionType)
    (level : LearningLevel) (used : List QKey) (r : List Nat) :
    ((chooseQuestionPair pairs qtype level used r).2.2.2 ≤ 4 ∧
     (questionKey qtype (chooseQuestionPair pairs qtype level used r).1 level ∈ used →
       (chooseQuestionPair pairs qtype level used r).2.2.2 = 4) ∧
     (chooseQuestionPair pairs qtype level used r).2.1 =
       pyInsert (questionKey qtype (chooseQuestionPair pairs qtype level used r).1 level)
         used) ∧
    (∀ (o : GenOracle) (P : List LinePair) (t : String) (l : LearningLevel)
        (r2 : List Nat),
      build_questions_for_context o P t l r2 =
        build_questions_for_context_from o [] P t l r2) :=
  ⟨chooseQuestionPairGo_spec pairs qtype level 4 0 used r rfl,
   fun _ _ _ _ _ => rfl⟩

/-- Witness for C10's amended retry property: with a single pair whose
single-choice key is already used, the loop accepts it on attempt 4. -/
theorem c10_key_witness :
    (questionKey .multiple_choice_single ("hello there", "aa") .beginner ∈
      [questionKey .multiple_choice_single ("hello there", "aa") .beginner]) ∧
    (chooseQuestionPair [("hello there", "aa")] .multiple_choice_single .beginner
      [questionKey .multiple_choice_single ("hello there", "aa") .beginner] []).2.2.2 = 4 :=
  ⟨by decide,
   (c10_key_amended [("hello there", "aa")] .multiple_choice_single .beginner
     [questionKey .multiple_choice_single ("hello there", "aa") .beginner] []).1.2.1
     (by decide)⟩

/-- The pair list and second-call stream of the C10 counterexample. -/
def pairsHello : List LinePair := [("hello there", "aa"), ("how are you", "bb")]

def streamSecond : List Nat := List.replicate 12 0 ++ [0, 1]

/-- C10 counterexample: the used-question-key set is NOT lesson-scoped.  A
second per-context call in the same lesson (the spec's lesson lifetime,
modelled by threading the first call's key set into
`build_questions_for_context_from`) would retry the first question's pair
choice — its key was drafted by the first context — and draft "how are you";
the source call (fresh empty set each call) accepts "hello there" on attempt
0 without any retry.  The claim's lesson-pass lifetime is refuted. -/
theorem c10_key_counterexample :
    (questionKey .multiple_choice_single ("hello there", "aa") .beginner ∈
      (build_questions_for_context oracleNone pairsHello "t" .beginner []).2.1) ∧
    ((build_questions_for_context oracleNone pairsHello "t" .beginner streamSecond).1.map
        (fun s => s.qq.prompt_en)).head? =
      some ("What does this mean: \x27hello there\x27?") ∧
    ((build_questions_for_context_from oracleNone
        ((build_questions_for_context oracleNone pairsHello "t" .beginner []).2.1)
        pairsHello "t" .beginner streamSecond).1.map
        (fun s => s.qq.prompt_en)).head? =
      some ("What does this mean: \x27how are you\x27?") := by
  exact ⟨by decide, by decide, by decide⟩

/-! ## C6: the generation client `generate_conversation` (source lines 458-492)

The HTTP layer is modelled by an oracle giving, per attempt index, the status
code and text payload of the response (`requests.post` plus the JSON
extraction; the payload stands for
`data["candidates"][0]["content"]["parts"][0]["text"]`).  `time.sleep`
durations are logged so backoff can be verified. -/

structure HttpResp where
  status : Nat
  body : String
deriving DecidableEq

inductive GenResult
  | ok (text : String)
  | httpError (status : Nat)
  | exhausted
deriving DecidableEq

/-- The retry loop of `generate_conversation`: a 429 sleeps
`base_wait * 2 ** attempt` and retries; any other error status raises
`HTTPError`, which the `except` branch re-raises immediately (its 429 retry
arm is dead code, since a 429 never reaches `raise_for_status`); a
non-error status returns the payload; an exhausted loop raises
`RuntimeError`. -/
def generateGo (resp : Nat → HttpResp) (baseWait : Nat) :
    Nat → Nat → List Nat → GenResult × List Nat
  | 0, _, sleeps => (.exhausted, sleeps)
  | fuel + 1, attempt, sleeps =>
    let t := resp attempt
    if t.status = 429 then
      generateGo resp baseWait fuel (attempt + 1) (sleeps ++ [baseWait * 2 ^ attempt])
    else if 400 ≤ t.status then (.httpError t.status, sleeps)
    else (.ok t.body, sleeps)

/-- `generate_conversation(prompt, max_retries, base_wait)`; the prompt is
absorbed into the response oracle. -/
def generate_conversation (resp : Nat → HttpResp) (maxRetries baseWait : Nat) :
    GenResult × List Nat :=
  generateGo resp baseWait maxRetries 0 []

/-- C6 counterexample: a 500 response on the very first attempt is re-raised
IMMEDIATELY — no retry and no backoff sleep ever happens (the sleep log is
empty) — contradicting the claim that any non-rate-limit request failure is
retried up to max_retries with exponential backoff before re-raising. -/
theorem c6_retry_counterexample :
    generate_conversation (fun _ => ⟨500, ""⟩) 3 1800 = (.httpError 500, []) ∧
    (generate_conversation (fun _ => ⟨500, ""⟩) 3 1800).2.length = 0 := by
  exact ⟨by decide, by decide⟩

theorem generateGo_allRL (resp : Nat → HttpResp) (baseWait : Nat) :
    ∀ (fuel attempt : Nat) (sleeps : List Nat),
    (∀ i, attempt ≤ i → i < attempt + fuel → (resp i).status = 429) →
    generateGo resp baseWait fuel attempt sleeps =
      (.exhausted, sleeps ++ (List.range fuel).map (fun j => baseWait * 2 ^ (attempt + j))) := by
  intro fuel
  induction fuel with
  | zero => intro attempt sleeps _; simp [generateGo]
  | succ n ih =>
    intro attempt sleeps h
    have h0 : (resp attempt).status = 429 := h attempt (le_refl _) (by omega)
    simp only [generateGo, if_pos h0]
    rw [ih (attempt + 1) _ (fun i hi1 hi2 => h i (by omega) (by omega))]
    refine congrArg (fun l => (GenResult.exhausted, l)) ?_
    rw [List.range_succ_eq_map, List.map_cons, List.map_map, List.append_assoc]
    refine congrArg (fun l => sleeps ++ l) ?_
    have harith : ∀ j : Nat, attempt + 1 + j = attempt + (j + 1) := by omega
    simp [Function.comp, harith]

theorem generateGo_firstNon429 (resp : Nat → HttpResp) (baseWait : Nat) :
    ∀ (k fuel attempt : Nat) (sleeps : List Nat), k < fuel →
    (∀ i, attempt ≤ i → i < attempt + k → (resp i).status = 429) →
    (resp (attempt + k)).status ≠ 429 →
    generateGo resp baseWait fuel attempt sleeps =
      ((if 400 ≤ (resp (attempt + k)).status then .httpError (resp (attempt + k)).status
        else .ok (resp (attempt + k)).body),
       sleeps ++ (List.range k).map (fun j => baseWait * 2 ^ (attempt + j))) := by
  intro k
  induction k with
  | zero =>
    intro fuel attempt sleeps hk _ hne
    obtain ⟨f, rfl⟩ : ∃ f, fuel = f + 1 := ⟨fuel - 1, by omega⟩
    simp only [generateGo, Nat.add_zero] at hne ⊢
    rw [if_neg hne]
    by_cases h4 : 400 ≤ (resp attempt).status <;> simp [h4]
  | succ n ih =>
    intro fuel attempt sleeps hk h429 hne
    obtain ⟨f, rfl⟩ : ∃ f, fuel = f + 1 := ⟨fuel - 1, by omega⟩
    have h0 : (resp attempt).status = 429 := h429 attempt (le_refl _) (by omega)
    simp only [generateGo, if_pos h0]
    have harith : attempt + 1 + n = attempt + (n + 1) := by omega
    rw [ih f (attempt + 1) _ (by omega)
      (fun i hi1 hi2 => h429 i (by omega) (by omega)) (by rw [harith]; exact hne)]
    rw [harith]
    refine congrArg (fun l => (_, l)) ?_
    rw [List.range_succ_eq_map, List.map_cons, List.map_map, List.append_assoc]
    refine congrArg (fun l => sleeps ++ l) ?_
    have harith2 : ∀ j : Nat, attempt + 1 + j = attempt + (j + 1) := by omega
    simp [Function.comp, harith2]

/-- C6 amended: on rate-limit responses the client sleeps
`base_wait * 2 ^ attempt` and retries, up to max_retries, after which it
fails with the generation-exhausted error; but on any OTHER request failure
it re-raises immediately, with no retry and no backoff; on a success it
returns the raw text payload (after the backoffs of any preceding
rate-limit responses). -/
theorem c6_retry_amended (resp : Nat → HttpResp) (maxRetries baseWait : Nat) :
    ((∀ i, i < maxRetries → (resp i).status = 429) →
      generate_conversation resp maxRetries baseWait =
        (.exhausted, (List.range maxRetries).map (fun j => baseWait * 2 ^ j))) ∧
    (∀ k, k < maxRetries → (∀ i, i < k → (resp i).status = 429) →
      (resp k).status ≠ 429 →
      generate_conversation resp maxRetries baseWait =
        ((if 400 ≤ (resp k).status then .httpError (resp k).status
          else .ok (resp k).body),
         (List.range k).map (fun j => baseWait * 2 ^ j))) := by
  constructor
  · intro h
    have := generateGo_allRL resp baseWait maxRetries 0 []
      (fun i _ hi => h i (by omega))
    simpa using this
  · intro k hk h429 hne
    have := generateGo_firstNon429 resp baseWait k maxRetries 0 [] hk
      (fun i _ hi => h429 i (by omega)) (by simpa using hne)
    simpa using this

/-- Witness for C6: three straight 429s exhaust with sleeps
[100, 200, 400]; a 429 followed by a 200 returns the payload after one
backoff sleep. -/
theorem c6_retry_witness :
    generate_conversation (fun _ => ⟨429, ""⟩) 3 100 = (.exhausted, [100, 200, 400]) ∧
    generate_conversation (fun i => if i = 0 then ⟨429, ""⟩ else ⟨200, "payload"⟩) 3 100 =
      (.ok "payload", [100]) := by
  constructor
  · have h := (c6_retry_amended (fun _ => ⟨429, ""⟩) 3 100).1 (fun i _ => rfl)
    rw [h]
    decide
  · have h := (c6_retry_amended (fun i => if i = 0 then ⟨429, ""⟩ else ⟨200, "payload"⟩)
      3 100).2 1 (by omega) (fun i hi => by interval_cases i; rfl) (by decide)
    rw [h]
    decide

/-! ## C7: the context-generation accept/reject loop of `main`
(source lines 614-647)

`gen attempt` is the parsed result of attempt number `attempt`: `none` when
`generate_conversation` raised (the `pairs` variable keeps its previous
value), `some ps` when parsing produced `ps` (a `ps` shorter than 2 raises
`ValueError` AFTER the assignment, so `pairs` holds the short list). -/

def contextAttemptLoop (gen : Nat → Option (List LinePair)) :
    Nat → Nat → Option (List LinePair) → List (List LinePair) →
    Option (List LinePair) × List (List LinePair)
  | 0, _, pairsVar, used => (pairsVar, used)
  | fuel + 1, attempt, pairsVar, used =>
    match gen attempt with
    | none => contextAttemptLoop gen fuel (attempt + 1) pairsVar used
    | some ps =>
      if ps.length < 2 then contextAttemptLoop gen fuel (attempt + 1) (some ps) used
      else
        if is_duplicate_check (curLines ps) used then
          if attempt = 4 then (some ps, pyInsert ps used)
          else contextAttemptLoop gen fuel (attempt + 1) (some ps) used
        else (some ps, pyInsert ps used)

/-- The post-loop validity check `if not pairs or len(pairs) < 2: skip`. -/
def acceptedPairs : Option (List LinePair) → Option (List LinePair)
  | none => none
  | some ps => if ps.length < 2 then none else some ps

theorem contextAttemptLoop_dup_step (gen : Nat → Option (List LinePair))
    (used : List (List LinePair)) (a : Nat) (ps : List LinePair)
    (pv : Option (List LinePair)) (fuel : Nat) (hg : gen a = some ps)
    (hl : 2 ≤ ps.length) (hd : is_duplicate_check (curLines ps) used = true)
    (ha : a ≠ 4) :
    contextAttemptLoop gen (fuel + 1) a pv used =
      contextAttemptLoop gen fuel (a + 1) (some ps) used := by
  simp only [contextAttemptLoop, hg]
  rw [if_neg (by omega), if_pos hd, if_neg ha]

/-- C7: when all 5 context-generation attempts yield valid (length ≥ 2)
parses that are each flagged as near-duplicates of the accepted set, the
loop force-accepts the fifth attempt: it returns that attempt's pairs, adds
them to the accepted set, and the post-loop validity check lets the
orchestrator proceed to use them — it neither raises nor loops (the loop is
a total function of its 5-attempt budget). -/
theorem c7_force_accept (gen : Nat → Option (List LinePair))
    (used : List (List LinePair))
    (h : ∀ a, a < 5 → ∃ ps, gen a = some ps ∧ 2 ≤ ps.length ∧
      is_duplicate_check (curLines ps) used = true) :
    ∃ ps4, gen 4 = some ps4 ∧
      contextAttemptLoop gen 5 0 none used = (some ps4, pyInsert ps4 used) ∧
      acceptedPairs (some ps4) = some ps4 ∧
      ps4 ∈ pyInsert ps4 used := by
  obtain ⟨ps0, hg0, hl0, hd0⟩ := h 0 (by omega)
  obtain ⟨ps1, hg1, hl1, hd1⟩ := h 1 (by omega)
  obtain ⟨ps2, hg2, hl2, hd2⟩ := h 2 (by omega)
  obtain ⟨ps3, hg3, hl3, hd3⟩ := h 3 (by omega)
  obtain ⟨ps4, hg4, hl4, hd4⟩ := h 4 (by omega)
  refine ⟨ps4, hg4, ?_, ?_, ?_⟩
  · rw [contextAttemptLoop_dup_step gen used 0 ps0 none 4 hg0 hl0 hd0 (by omega),
        contextAttemptLoop_dup_step gen used 1 ps1 _ 3 hg1 hl1 hd1 (by omega),
        contextAttemptLoop_dup_step gen used 2 ps2 _ 2 hg2 hl2 hd2 (by omega),
        contextAttemptLoop_dup_step gen used 3 ps3 _ 1 hg3 hl3 hd3 (by omega)]
    simp only [contextAttemptLoop, hg4]
    rw [if_neg (by omega), if_pos hd4]
    simp
  · simp only [acceptedPairs]
    rw [if_neg (by omega)]
  · by_cases hmem : ps4 ∈ used <;> simp [pyInsert, hmem]

/-- The all-duplicate generation outcome of the C7 witness: every attempt
parses to the same two lines already fingerprinted in the accepted set. -/
def fprDup : List LinePair := [("hello", "a"), ("how are you", "b")]

def genC7 : Nat → Option (List LinePair) := fun _ => some fprDup

/-- Witness for C7: with every attempt a valid near-duplicate of
{"hello", "how are you"}, the loop force-accepts attempt 4's pairs. -/
theorem c7_force_accept_witness :
    contextAttemptLoop genC7 5 0 none [fprHello] =
      (some fprDup, pyInsert fprDup [fprHello]) := by
  obtain ⟨ps4, hg, hloop, -, -⟩ := c7_force_accept genC7 [fprHello]
    (fun a _ => ⟨fprDup, rfl, by decide, by decide⟩)
  have h' : some fprDup = some ps4 := hg
  cases Option.some.inj h'
  exact hloop

/-! ## C4: the seeding orchestrator `main` (source lines 494-709)

Storage (the SQLAlchemy session and database) is modelled as lists of
records identified by their natural keys (slugs, and parent-composite keys
standing for the foreign-key ids).  The generation-plus-parsing of one
context attempt is an oracle `GenFun` from the walk position (section, unit,
lesson, context index, attempt) to the parsed pairs (`none` = the request
raised).  `is_active` fields (constantly true) and the unused
hint/explanation columns are omitted.  The creation counter counts every
`session.add` (sections, units, lessons, contexts, questions, answers). -/

def SECTION_TOPICS : List String :=
  ["daily life", "travel", "food", "school and friends", "health",
   "internet and slang", "shopping", "work and job", "family", "festivals and culture"]

def UNIT_TOPICS_PER_SECTION : List (List String) :=
  [["greetings", "introductions", "small talk", "farewell", "gratitude", "asking for help", "inviting"],
   ["bus and train", "directions", "booking tickets", "at the station", "checking in", "asking locals", "travel problems"],
   ["ordering food", "in a cafe", "at a restaurant", "complaints", "paying the bill", "recommendations", "special occasions"],
   ["classroom", "exams", "projects", "friendship", "teachers", "timetable", "after school plans"],
   ["feeling sick", "doctor visit", "pharmacy", "explaining symptoms", "getting advice", "emergencies", "weather talk"],
   ["memes", "texting", "Instagram", "WhatsApp", "slang and emojis", "online fights", "viral trends"],
   ["bargaining", "grocery", "mall shopping", "paying by UPI", "discounts", "returns", "shopping online"],
   ["meetings", "job interview", "work chat", "office parties", "emails", "deadlines", "boss-talk"],
   ["family gathering", "weddings", "siblings", "talking to parents", "household chores", "arguments", "support and comfort"],
   ["onam", "vishu", "going to temple", "local sports", "movie talk", "festive eating", "dressing for festivals"]]

/-- `topic.replace(" ", "-")`. -/
def slugify (s : String) : String :=
  String.mk (s.data.map (fun c => if c = ' ' then '-' else c))

/-- Python `str.title()`: uppercase a letter following a non-letter,
lowercase the rest. -/
def pyTitleGo : Bool → List Char → List Char
  | _, [] => []
  | prev, c :: rest => (if prev then c.toLower else c.toUpper) :: pyTitleGo c.isAlpha rest

def pyTitle (s : String) : String := String.mk (pyTitleGo false s.data)

structure SectionRec where
  slug : String
  title : String
  description : String
  order_index : Nat
deriving DecidableEq

structure UnitRec where
  section_slug : String
  title : String
  slug : String
  description : String
  order_index : Nat
deriving DecidableEq

structure LessonRec where
  section_slug : String
  unit_slug : String
  title : String
  slug : String
  summary : Option String
  level : LearningLevel
  order_index : Nat
deriving DecidableEq

structure ContextRec where
  section_slug : String
  unit_slug : String
  lesson_slug : String
  context_title : String
  context_text_en : String
  context_text_ml : String
  level : LearningLevel
deriving DecidableEq

structure AnswerRec where
  answer_text_en : String
  answer_text_ml : String
  is_correct : Bool
  order_index : Nat
deriving DecidableEq

structure QuestionRec where
  section_slug : String
  unit_slug : String
  lesson_slug : String
  context_level : LearningLevel
  qq : QuizQuestionDraft
  answers : List AnswerRec
deriving DecidableEq

structure Storage where
  sections : List SectionRec
  units : List UnitRec
  lessons : List LessonRec
  contexts : List ContextRec
  questions : List QuestionRec
deriving DecidableEq

def emptyStorage : Storage := ⟨[], [], [], [], []⟩

structure RunState where
  storage : Storage
  usedContexts : List (List LinePair)
  rng : List Nat
  creations : Nat
deriving DecidableEq

/-- Generation + parsing of one context attempt, keyed by walk position
(section idx, unit idx, lesson idx, context idx, attempt). -/
abbrev GenFun := Nat → Nat → Nat → Nat → Nat → Option (List LinePair)

def findSection (σ : Storage) (slug : String) : Option SectionRec :=
  σ.sections.find? (fun x => decide (x.slug = slug))

def findUnit (σ : Storage) (s u : String) : Option UnitRec :=
  σ.units.find? (fun x => decide (x.section_slug = s ∧ x.slug = u))

def findLesson (σ : Storage) (s u l : String) : Option LessonRec :=
  σ.lessons.find? (fun x => decide (x.section_slug = s ∧ x.unit_slug = u ∧ x.slug = l))

def findContext (σ : Storage) (s u l : String) (lvl : LearningLevel) :
    Option ContextRec :=
  σ.contexts.find? (fun c =>
    decide (c.section_slug = s ∧ c.unit_slug = u ∧ c.lesson_slug = l ∧ c.level = lvl))

def contextCount (σ : Storage) (s u l : String) : Nat :=
  (σ.contexts.filter (fun c =>
    decide (c.section_slug = s ∧ c.unit_slug = u ∧ c.lesson_slug = l))).length

def questionCount (σ : Storage) (s u l : String) : Nat :=
  (σ.questions.filter (fun q =>
    decide (q.section_slug = s ∧ q.unit_slug = u ∧ q.lesson_slug = l))).length

/-- The lesson completeness check of `main`: `context_count >= 3 and
question_count >= 36`. -/
def lessonComplete (σ : Storage) (s u l : String) : Bool :=
  decide (3 ≤ contextCount σ s u l ∧ 36 ≤ questionCount σ s u l)

/-- `format_context_as_markdown(pairs, level)` (source lines 120-132). -/
def format_context_as_markdown (pairs : List LinePair) (level : LearningLevel) : String :=
  String.intercalate "\n"
    (("**Context** _(Level: " ++ levelTitle level ++ ")_\n") ::
      (pairs.enum.flatMap (fun iq =>
        [Nat.repr (iq.1 + 1) ++ ". " ++ iq.2.1, "   _" ++ iq.2.2 ++ "_\n"])))

/-- One level's context generation and persistence inside a lesson (source
lines 602-698).  The accumulator carries the run state, the lesson's
question counter and the collected markdown contexts. -/
def processContext (o : GenOracle) (g : GenFun) (sIdx uIdx lIdx : Nat)
    (sSlug uSlug lSlug topic : String)
    (acc : RunState × Nat × List String) (ctx : Nat × LearningLevel) :
    RunState × Nat × List String :=
  let st := acc.1
  if (findContext st.storage sSlug uSlug lSlug ctx.2).isSome then acc
  else
    let lp := contextAttemptLoop (g sIdx uIdx lIdx ctx.1) 5 0 none st.usedContexts
    match acceptedPairs lp.1 with
    | none => (⟨st.storage, lp.2, st.rng, st.creations⟩, acc.2.1, acc.2.2)
    | some ps =>
      let md := format_context_as_markdown ps ctx.2
      let ctxRec : ContextRec := ⟨sSlug, uSlug, lSlug,
        levelTitle ctx.2 ++ " Context",
        String.intercalate "\n" (ps.map (fun q => q.1)),
        String.intercalate "\n" (ps.map (fun q => q.2)), ctx.2⟩
      let qs := build_questions_for_context o ps topic ctx.2 st.rng
      let qRecs := qs.1.enum.map (fun iq =>
        (⟨sSlug, uSlug, lSlug, ctx.2,
          { iq.2.qq with order_index := acc.2.1 + iq.1 },
          iq.2.answers.enum.map (fun ia =>
            ⟨ia.2.text_en, ia.2.text_ml, ia.2.is_correct, ia.2.order_index.getD ia.1⟩)⟩ :
          QuestionRec))
      let nAnswers := (qs.1.map (fun s => s.answers.length)).sum
      let σ' : Storage :=
        { st.storage with
          contexts := st.storage.contexts ++ [ctxRec],
          questions := st.storage.questions ++ qRecs }
      (⟨σ', lp.2, qs.2.2, st.creations + 1 + qs.1.length + nAnswers⟩,
       acc.2.1 + qs.1.length, acc.2.2 ++ [md])

/-- The three per-lesson levels with their context indices. -/
def levelsList : List (Nat × LearningLevel) :=
  [(0, .beginner), (1, .intermediate), (2, .advanced)]

/-- `lesson.summary = "\n\n---\n\n".join(all_markdown_contexts)`. -/
def updateLessonSummary (σ : Storage) (s u l : String) (summary : String) : Storage :=
  { σ with lessons := σ.lessons.map (fun L =>
      if L.section_slug = s ∧ L.unit_slug = u ∧ L.slug = l then
        { L with summary := some summary } else L) }

/-- The context loop plus the summary update for one lesson (source lines
597-705). -/
def lessonBody (o : GenOracle) (g : GenFun) (sIdx uIdx lIdx : Nat)
    (sSlug uSlug lSlug topic : String) (st : RunState) : RunState :=
  let res := levelsList.foldl
    (processContext o g sIdx uIdx lIdx sSlug uSlug lSlug topic) (st, 0, [])
  if res.2.2 ≠ [] then
    ⟨updateLessonSummary res.1.storage sSlug uSlug lSlug
       (String.intercalate "\n\n---\n\n" res.2.2),
     res.1.usedContexts, res.1.rng, res.1.creations⟩
  else res.1

/-- One lesson of the walk (source lines 553-705): look up by (unit, slug);
skip when complete; resume (only missing level contexts) when incomplete;
create then fill when absent. -/
def processLesson (o : GenOracle) (g : GenFun) (sIdx uIdx : Nat)
    (sSlug uSlug topic : String) (st : RunState) (lIdx : Nat) : RunState :=
  let lSlug := uSlug ++ "-lesson-" ++ Nat.repr (lIdx + 1)
  match findLesson st.storage sSlug uSlug lSlug with
  | some _ =>
    if lessonComplete st.storage sSlug uSlug lSlug then st
    else lessonBody o g sIdx uIdx lIdx sSlug uSlug lSlug topic st
  | none =>
    let L : LessonRec := ⟨sSlug, uSlug, "Lesson " ++ Nat.repr (lIdx + 1), lSlug,
      none, .intermediate, lIdx⟩
    lessonBody o g sIdx uIdx lIdx sSlug uSlug lSlug topic
      ⟨{ st.storage with lessons := st.storage.lessons ++ [L] },
       st.usedContexts, st.rng, st.creations + 1⟩

/-- One unit of the walk (source lines 527-553). -/
def processUnit (o : GenOracle) (g : GenFun) (tm : Bool) (sIdx : Nat)
    (sSlug : String) (st : RunState) (ut : Nat × String) : RunState :=
  let uSlug := slugify ut.2
  let st1 :=
    if (findUnit st.storage sSlug uSlug).isSome then st
    else ⟨{ st.storage with units := st.storage.units ++
        [⟨sSlug, "Unit " ++ Nat.repr (ut.1 + 1), uSlug, ut.2, ut.1⟩] },
      st.usedContexts, st.rng, st.creations + 1⟩
  (List.range (if tm then 1 else 5)).foldl
    (processLesson o g sIdx ut.1 sSlug uSlug ut.2) st1

/-- One section of the walk (source lines 502-527). -/
def processSection (o : GenOracle) (g : GenFun) (tm : Bool)
    (st : RunState) (sIdx : Nat) : RunState :=
  let topic := SECTION_TOPICS.getD sIdx ""
  let sSlug := slugify topic
  let st1 :=
    if (findSection st.storage sSlug).isSome then st
    else ⟨{ st.storage with sections := st.storage.sections ++
        [⟨sSlug, "Section " ++ Nat.repr (sIdx + 1), pyTitle topic, sIdx⟩] },
      st.usedContexts, st.rng, st.creations + 1⟩
  let unitTopics := UNIT_TOPICS_PER_SECTION.getD sIdx []
  ((unitTopics.take (if tm then 1 else unitTopics.length)).enum).foldl
    (processUnit o g tm sIdx sSlug) st1

/-- `main()`: the full walk over sections, starting with an empty in-memory
dedup set and a fresh creation counter; returns the final storage and the
number of entity creations performed by this run. -/
def runMain (tm : Bool) (o : GenOracle) (g : GenFun) (r : List Nat) (σ : Storage) :
    Storage × Nat :=
  let st := (List.range (if tm then 1 else SECTION_TOPICS.length)).foldl
    (processSection o g tm) ⟨σ, [], r, 0⟩
  (st.storage, st.creations)

/-- Does the storage contain every entity the walk would visit, with every
visited lesson complete?  (The state a fully-successful first run leaves
behind.) -/
def secondRunReady (tm : Bool) (σ : Storage) : Bool :=
  (List.range (if tm then 1 else SECTION_TOPICS.length)).all (fun sIdx =>
    let sSlug := slugify (SECTION_TOPICS.getD sIdx "")
    let unitTopics := UNIT_TOPICS_PER_SECTION.getD sIdx []
    (findSection σ sSlug).isSome &&
      ((unitTopics.take (if tm then 1 else unitTopics.length)).enum).all (fun ut =>
        let uSlug := slugify ut.2
        (findUnit σ sSlug uSlug).isSome &&
          (List.range (if tm then 1 else 5)).all (fun lIdx =>
            let lSlug := uSlug ++ "-lesson-" ++ Nat.repr (lIdx + 1)
            (findLesson σ sSlug uSlug lSlug).isSome &&
              lessonComplete σ sSlug uSlug lSlug)))

theorem foldl_fixed {α : Type u_1} {β : Type u_2} (f : β → α → β) (b : β) :
    ∀ (l : List α), (∀ a ∈ l, f b a = b) → l.foldl f b = b
  | [], _ => rfl
  | x :: xs, h => by
    rw [List.foldl_cons, h x (List.mem_cons_self x xs)]
    exact foldl_fixed f b xs (fun a ha => h a (List.mem_cons_of_mem x ha))

theorem processLesson_skip (o : GenOracle) (g : GenFun) (sIdx uIdx : Nat)
    (sSlug uSlug topic : String) (st : RunState) (lIdx : Nat)
    (hfound : (findLesson st.storage sSlug uSlug
      (uSlug ++ "-lesson-" ++ Nat.repr (lIdx + 1))).isSome = true)
    (hcomp : lessonComplete st.storage sSlug uSlug
      (uSlug ++ "-lesson-" ++ Nat.repr (lIdx + 1)) = true) :
    processLesson o g sIdx uIdx sSlug uSlug topic st lIdx = st := by
  simp only [processLesson]
  obtain ⟨L, hL⟩ := Option.isSome_iff_exists.mp hfound
  simp only [hL]
  rw [if_pos hcomp]

theorem processUnit_skip (o : GenOracle) (g : GenFun) (tm : Bool) (sIdx : Nat)
    (sSlug : String) (st : RunState) (ut : Nat × String)
    (hu : (findUnit st.storage sSlug (slugify ut.2)).isSome = true)
    (hl : ∀ lIdx ∈ List.range (if tm then 1 else 5),
      (findLesson st.storage sSlug (slugify ut.2)
        (slugify ut.2 ++ "-lesson-" ++ Nat.repr (lIdx + 1))).isSome = true ∧
      lessonComplete st.storage sSlug (slugify ut.2)
        (slugify ut.2 ++ "-lesson-" ++ Nat.repr (lIdx + 1)) = true) :
    processUnit o g tm sIdx sSlug st ut = st := by
  simp only [processUnit]
  rw [if_pos hu]
  exact foldl_fixed _ st _ (fun lIdx hmem =>
    processLesson_skip o g sIdx ut.1 sSlug (slugify ut.2) ut.2 st lIdx
      (hl lIdx hmem).1 (hl lIdx hmem).2)

theorem processSection_skip (o : GenOracle) (g : GenFun) (tm : Bool)
    (st : RunState) (sIdx : Nat)
    (hs : (findSection st.storage (slugify (SECTION_TOPICS.getD sIdx ""))).isSome = true)
    (hu : ∀ ut ∈ ((UNIT_TOPICS_PER_SECTION.getD sIdx []).take
        (if tm then 1 else (UNIT_TOPICS_PER_SECTION.getD sIdx []).length)).enum,
      (findUnit st.storage (slugify (SECTION_TOPICS.getD sIdx ""))
        (slugify ut.2)).isSome = true ∧
      ∀ lIdx ∈ List.range (if tm then 1 else 5),
        (findLesson st.storage (slugify (SECTION_TOPICS.getD sIdx "")) (slugify ut.2)
          (slugify ut.2 ++ "-lesson-" ++ Nat.repr (lIdx + 1))).isSome = true ∧
        lessonComplete st.storage (slugify (SECTION_TOPICS.getD sIdx "")) (slugify ut.2)
          (slugify ut.2 ++ "-lesson-" ++ Nat.repr (lIdx + 1)) = true) :
    processSection o g tm st sIdx = st := by
  simp only [processSection]
  rw [if_pos hs]
  exact foldl_fixed _ st _ (fun ut hmem =>
    processUnit_skip o g tm sIdx _ st ut (hu ut hmem).1 (hu ut hmem).2)

/-- C4 amended: every entity is looked up by its natural key before creation
(by construction of the walk); whenever the storage already holds every
visited section, unit and lesson with every visited lesson complete
(≥ 3 contexts and ≥ 36 questions) — the state a fully-successful first run
leaves behind — a further run changes nothing and performs zero creations.
In particular running the orchestrator twice equals running it once whenever
the first run completes every visited lesson; without that proviso the claim
fails (see the counterexample). -/
theorem c4_idempotent_amended (tm : Bool) (σ : Storage)
    (h : secondRunReady tm σ = true) (o : GenOracle) (g : GenFun) (r : List Nat) :
    runMain tm o g r σ = (σ, 0) := by
  simp only [secondRunReady, List.all_eq_true] at h
  have step : ∀ sIdx ∈ List.range (if tm then 1 else SECTION_TOPICS.length),
      processSection o g tm ⟨σ, [], r, 0⟩ sIdx = ⟨σ, [], r, 0⟩ := by
    intro sIdx hmem
    have hs := h sIdx hmem
    rw [Bool.and_eq_true] at hs
    apply processSection_skip o g tm _ sIdx hs.1
    intro ut hut
    have h3 := (List.all_eq_true.mp hs.2) ut hut
    rw [Bool.and_eq_true] at h3
    refine ⟨h3.1, ?_⟩
    intro lIdx hli
    have h5 := (List.all_eq_true.mp h3.2) lIdx hli
    rw [Bool.and_eq_true] at h5
    exact ⟨h5.1, h5.2⟩
  have hfold : (List.range (if tm then 1 else SECTION_TOPICS.length)).foldl
      (processSection o g tm) ⟨σ, [], r, 0⟩ = (⟨σ, [], r, 0⟩ : RunState) :=
    foldl_fixed _ _ _ step
  simp only [runMain]
  rw [hfold]

set_option maxRecDepth 8000

/-- The generation outcome of the C4 counterexample (test mode, one lesson):
the beginner context parses fine; the intermediate context's first attempt
parses to the SAME lines (flagged as a near-duplicate of the beginner
fingerprint in run 1) and its retries all parse too short; the advanced
context parses fine and distinct. -/
def gC4 : GenFun := fun _ _ _ ctxIdx attempt =>
  if ctxIdx = 1 then
    (if attempt = 0 then some [("a", "b"), ("c", "d")] else some [("z", "z")])
  else if ctxIdx = 0 then some [("a", "b"), ("c", "d")]
  else some [("e", "f"), ("g", "h")]

/-- C4 counterexample: with deterministic per-position generation results
(the same inputs for both runs), run 1 rejects the intermediate context as a
near-duplicate of the beginner context and leaves the lesson incomplete with
2 contexts; run 2 starts with a FRESH in-memory dedup set (the skipped
beginner context contributes no fingerprint), so the very same intermediate
generation is now accepted: the second run performs 32 creations, not zero,
and the final entity counts differ (3 contexts versus 2). -/
theorem c4_idempotent_counterexample :
    (runMain true oracleNone gC4 [] emptyStorage).1.contexts.length = 2 ∧
    (runMain true oracleNone gC4 []
      ((runMain true oracleNone gC4 [] emptyStorage).1)).1.contexts.length = 3 ∧
    (runMain true oracleNone gC4 []
      ((runMain true oracleNone gC4 [] emptyStorage).1)).2 = 32 := by
  exact ⟨by decide, by decide, by decide⟩

/-- The fully-successful generation outcome of the C4 witness: each level's
first attempt parses to two fresh, non-overlapping lines. -/
def gGood : GenFun := fun _ _ _ ctxIdx _ =>
  if ctxIdx = 0 then some [("a", "b"), ("c", "d")]
  else if ctxIdx = 1 then some [("e", "f"), ("g", "h")]
  else some [("i", "j"), ("k", "l")]

/-- Witness for C4: a fully-successful first run from empty storage leaves
every visited lesson complete, and the second run returns the same storage
with zero creations. -/
theorem c4_idempotent_witness :
    secondRunReady true ((runMain true oracleNone gGood [] emptyStorage).1) = true ∧
    runMain true oracleNone gGood [] ((runMain true oracleNone gGood [] emptyStorage).1) =
      (((runMain true oracleNone gGood [] emptyStorage).1), 0) :=
  ⟨by decide,
   c4_idempotent_amended true ((runMain true oracleNone gGood [] emptyStorage).1)
     (by decide) oracleNone gGood []⟩

end HeyThampi
